import Mathlib

/- Verification of the scheduler-dashboard boundary layer.

   The definitions below are a shallow embedding of three source areas:
   * the request gateway in src/app/api/proxy/[...path]/route.ts
     (credential validation, header construction, URL construction,
     relay and error translation);
   * the response envelope chain in src/lib/api.ts
     (the expression data.data?.data || data.data || data);
   * the optimistic scheduler lifecycle logic in src/app/page.tsx and
     the job pages (create, update, execute, pause, resume, delete
     mutation guards).

   JavaScript values are modelled by the Json type; JSON.parse and
   response.json are modelled by their result, an Option Json that is
   none exactly when the body is not parseable JSON. Thrown fetch
   errors are modelled by their runtime name and message; the Node
   connection-refused failure surfaces as a TypeError whose message is
   the literal string given in connectionRefusedMessage. -/

/-- JSON values as handled by the gateway and the client. Numbers are
modelled by integers; none of the verified properties depends on
fractional numeric payloads. -/
inductive Json where
  | null : Json
  | bool : Bool → Json
  | num : Int → Json
  | str : String → Json
  | arr : List Json → Json
  | obj : List (String × Json) → Json

/-- JavaScript property access o.k on a value: a field of an object,
undefined (none) on everything else. -/
def Json.getField : Json → String → Option Json
  | .obj fields, k => fields.lookup k
  | _, _ => none

/-- JavaScript truthiness of a JSON value: null, false, 0 and the
empty string are falsy; arrays and objects are always truthy. -/
def Json.truthy : Json → Bool
  | .null => false
  | .bool b => b
  | .num n => n != 0
  | .str s => s != ""
  | .arr _ => true
  | .obj _ => true

/-- JavaScript a || y where a may be undefined (none): keep a when it
is present and truthy, otherwise fall through to y. -/
def jsOrElse : Option Json → Json → Json
  | some v, y => if v.truthy then v else y
  | none, y => y

/-- The envelope chain applied to upstream bodies in src/lib/api.ts
(getHealth, getStats, getSchedulerStatus, startScheduler, stopScheduler,
restartScheduler): data.data?.data || data.data || data. -/
def normalizeEnvelope (b : Json) : Json :=
  jsOrElse ((b.getField "data").bind (fun d => d.getField "data"))
    (jsOrElse (b.getField "data") b)

/-- One success/data wrapper level around a payload. -/
def envelope (p : Json) : Json := .obj [("success", .bool true), ("data", p)]

/-- k nested wrapper levels around a payload. -/
def envelopeIter : Nat → Json → Json
  | 0, p => p
  | n + 1, p => envelope (envelopeIter n p)

/-- The health payload from the testable properties of the spec. -/
def payloadHealthy : Json := .obj [("status", .str "healthy")]

/-- The configured upstream base, line 3 of route.ts. -/
def SCHEDULER_API_BASE : String := "http://localhost:3002/api/v1"

/-- The permissive cross-origin header set route.ts attaches to the
relay, 503, 500 and pre-flight responses. -/
def corsHeaders : List (String × String) :=
  [("Access-Control-Allow-Origin", "*"),
   ("Access-Control-Allow-Methods", "GET, POST, PUT, DELETE, OPTIONS"),
   ("Access-Control-Allow-Headers", "Content-Type, Authorization, X-API-Key")]

/-- A response produced by the gateway: status, JSON body (null for the
body-less pre-flight answer) and the explicitly set headers. -/
structure GatewayResponse where
  status : Nat
  body : Json
  headers : List (String × String)

/-- An inbound request as seen by the route handlers: method, catch-all
path segments, raw query string, the inbound headers the spec talks
about, and the text body read by the POST and PUT handlers. -/
structure InboundRequest where
  method : String
  pathSegments : List String
  queryString : String
  apiKeyHeader : Option String
  authorizationHeader : Option String
  originHeader : Option String
  textBody : Option String

/-- The 401 body returned by validateApiKey when the X-API-Key header
is absent, route.ts lines 15 to 20: no code field, no timestamp, and
no explicitly set headers. -/
def missingKeyResponse : GatewayResponse :=
  { status := 401,
    body := .obj [("success", .bool false),
                  ("error", .str "Missing X-API-Key header")],
    headers := [] }

/-- The 401 body returned by validateApiKey when the X-API-Key header
has the wrong value, route.ts lines 24 to 35. -/
def unauthorizedResponse (now : String) : GatewayResponse :=
  { status := 401,
    body := .obj [("success", .bool false),
                  ("error", .obj [("code", .str "UNAUTHORIZED"),
                                  ("message", .str "Invalid API key")]),
                  ("timestamp", .str now)],
    headers := [] }

/-- validateApiKey from route.ts lines 6 to 39. The check
!providedApiKey treats both an absent header and an empty string as
missing. now stands for new Date().toISOString(). -/
def validateApiKey (providedApiKey : Option String) (path : String) (now : String) :
    Option GatewayResponse :=
  if path = "system/health" then none
  else if providedApiKey.getD "" = "" then some missingKeyResponse
  else if providedApiKey ≠ some "client-request" then some (unauthorizedResponse now)
  else none

/-- createHeaders from route.ts lines 42 to 52: Content-Type always,
plus the X-API-Key entry when a key is supplied. -/
def createHeaders (apiKey : Option String) : List (String × String) :=
  [("Content-Type", "application/json")] ++
    (match apiKey with
     | some k => [("X-API-Key", k)]
     | none => [])

/-- Outcome of the fetch call: ok carries the upstream status and the
result of response.json (none when the body is not parseable JSON);
err carries the name and message of the thrown error. -/
inductive UpstreamResult where
  | ok : Nat → Option Json → UpstreamResult
  | err : String → String → UpstreamResult

/-- The observable arguments of the single fetch call route.ts makes. -/
structure UpstreamCall where
  url : String
  method : String
  headers : List (String × String)
  textBody : Option String

/-- Whether the pattern is an initial segment of the character list. -/
def startsWithChars : List Char → List Char → Bool
  | _, [] => true
  | [], _ :: _ => false
  | a :: as, b :: bs => (a == b) && startsWithChars as bs

/-- Whether the pattern occurs anywhere in the character list. -/
def hasSubChars : List Char → List Char → Bool
  | [], sub => startsWithChars [] sub
  | a :: tl, sub => startsWithChars (a :: tl) sub || hasSubChars tl sub

/-- JavaScript String.includes, used for error.message.includes in the
catch block of route.ts. -/
def containsSubstr (s sub : String) : Bool := hasSubChars s.toList sub.toList

/-- The 503 response from route.ts lines 92 to 109. -/
def backendUnavailableResponse (now : String) : GatewayResponse :=
  { status := 503,
    body := .obj [("success", .bool false),
                  ("error", .obj [("code", .str "BACKEND_UNAVAILABLE"),
                                  ("message", .str "Backend service is not available. Please ensure the scheduler service is running on port 3002.")]),
                  ("timestamp", .str now)],
    headers := corsHeaders }

/-- The 500 response from route.ts lines 112 to 129. -/
def proxyErrorResponse (now : String) : GatewayResponse :=
  { status := 500,
    body := .obj [("success", .bool false),
                  ("error", .obj [("code", .str "PROXY_ERROR"),
                                  ("message", .str "Proxy request failed")]),
                  ("timestamp", .str now)],
    headers := corsHeaders }

/-- The catch block of proxyRequest, route.ts lines 87 to 130:
a TypeError whose message mentions fetch becomes the 503 response,
every other thrown error becomes the 500 response. -/
def handleProxyCatch (errorName errorMessage now : String) : GatewayResponse :=
  if errorName == "TypeError" && containsSubstr errorMessage "fetch" then
    backendUnavailableResponse now
  else
    proxyErrorResponse now

/-- resolvedParams?.path?.join in the route handlers. -/
def joinPath (segments : List String) : String := String.intercalate "/" segments

/-- Name of the error Node fetch throws when the upstream connection is
refused. -/
def connectionRefusedName : String := "TypeError"

/-- Message of the error Node fetch throws when the upstream connection
is refused. -/
def connectionRefusedMessage : String := "fetch failed"

/-- Name of the error response.json throws on a non-JSON body. -/
def jsonParseErrorName : String := "SyntaxError"

/-- Message of the error response.json throws on a non-JSON body. -/
def jsonParseErrorMessage : String := "Unexpected end of JSON input"

/-- proxyRequest from route.ts lines 55 to 131, with the upstream
outcome supplied as an oracle. The second component records the fetch
call that was issued, none when validation rejected the request before
any upstream connection attempt. configuredApiKey is process.env.API_KEY
and now is new Date().toISOString(). The inbound query string is not
consulted anywhere; the body forwarded is body || undefined. -/
def proxyRequest (req : InboundRequest) (configuredApiKey : Option String) (now : String)
    (upstream : UpstreamResult) : GatewayResponse × Option UpstreamCall :=
  let path := joinPath req.pathSegments
  match validateApiKey req.apiKeyHeader path now with
  | some rejection => (rejection, none)
  | none =>
      let call : UpstreamCall :=
        { url := SCHEDULER_API_BASE ++ "/" ++ path,
          method := req.method,
          headers := createHeaders (if path ≠ "system/health" then configuredApiKey else none),
          textBody := match req.textBody with
                      | some s => if s = "" then none else some s
                      | none => none }
      match upstream with
      | .ok status (some data) =>
          ({ status := status, body := data, headers := corsHeaders }, some call)
      | .ok _ none =>
          (handleProxyCatch jsonParseErrorName jsonParseErrorMessage now, some call)
      | .err errorName errorMessage =>
          (handleProxyCatch errorName errorMessage now, some call)

/-- The OPTIONS handler, route.ts lines 171 to 180: it reads nothing
from the request and always answers 200 with the permissive headers. -/
def OPTIONS : GatewayResponse :=
  { status := 200, body := .null, headers := corsHeaders }

/-- Modelled from the claim wording of C5, as the refinement target to
compare with the source behaviour: the inbound bearer credential and
request-origin marker forwarded when present, Content-Type, and the
secret credential on non-exempt paths. -/
def specUpstreamHeaders (req : InboundRequest) (cfg : Option String) : List (String × String) :=
  (match req.authorizationHeader with
   | some a => [("Authorization", a)]
   | none => []) ++
  (match req.originHeader with
   | some o => [("Origin", o)]
   | none => []) ++
  [("Content-Type", "application/json")] ++
  (match cfg with
   | some k =>
       if joinPath req.pathSegments ≠ "system/health" then [("X-API-Key", k)] else []
   | none => [])

/-- The dashboard state of src/app/page.tsx that the lifecycle claims
are about: the optimistic flag, the operation label, and the last
isRunning value delivered by the scheduler-status query (none before
any poll has succeeded). -/
structure DashboardState where
  optimisticSchedulerState : Option Bool
  operationInProgress : Option String
  schedulerIsRunning : Option Bool

/-- currentSchedulerState from page.tsx lines 82 to 85: the optimistic
value when set, otherwise the polled value. -/
def currentSchedulerState (s : DashboardState) : Option Bool :=
  match s.optimisticSchedulerState with
  | some b => some b
  | none => s.schedulerIsRunning

/-- The three lifecycle operations the control panel issues. -/
inductive SchedulerOp where
  | start : SchedulerOp
  | stop : SchedulerOp
  | restart : SchedulerOp

/-- The onMutate callback of each mutation in page.tsx: start and
restart set the optimistic flag to true, stop sets it to false. -/
def onMutate : SchedulerOp → DashboardState → DashboardState
  | .start, s =>
      { s with optimisticSchedulerState := some true, operationInProgress := some "starting" }
  | .stop, s =>
      { s with optimisticSchedulerState := some false, operationInProgress := some "stopping" }
  | .restart, s =>
      { s with optimisticSchedulerState := some true, operationInProgress := some "restarting" }

/-- The onError callback shared by the three mutations, page.tsx lines
106 to 111, 133 to 138 and 160 to 165: roll the optimistic update back
at once. -/
def onOperationError (s : DashboardState) : DashboardState :=
  { s with optimisticSchedulerState := none, operationInProgress := none }

/-- The reconciliation useEffect, page.tsx lines 68 to 79: when a polled
value exists, an optimistic value exists and the two agree, the
optimistic value is cleared. -/
def reconcileEffect (s : DashboardState) : DashboardState :=
  match s.schedulerIsRunning, s.optimisticSchedulerState with
  | some actual, some opt =>
      if actual = opt then
        { s with optimisticSchedulerState := none, operationInProgress := none }
      else s
  | _, _ => s

/-- One tick of the scheduler-status query: the fresh isRunning value is
stored and the reconciliation effect runs on the updated state. -/
def pollTick (s : DashboardState) (v : Bool) : DashboardState :=
  reconcileEffect { s with schedulerIsRunning := some v }

/-- The six job-mutating actions of the job pages. -/
inductive JobAction where
  | create : JobAction
  | update : JobAction
  | execute : JobAction
  | pause : JobAction
  | resume : JobAction
  | del : JobAction

/-- Whether the mutationFn of each job action dispatches its network
call, as a function of the last isRunning value the status query
delivered (none while unavailable). From the job pages: the create,
update, execute, pause and resume mutationFns throw before calling the
client when schedulerData?.isRunning is not true; the del mutationFn
calls deleteJob unconditionally. -/
def jobActionCallsGateway (isRunning : Option Bool) : JobAction → Bool
  | .create => isRunning == some true
  | .update => isRunning == some true
  | .execute => isRunning == some true
  | .pause => isRunning == some true
  | .resume => isRunning == some true
  | .del => true

/-- A non-exempt GET request carrying no credential header at all. -/
def reqNoKey : InboundRequest :=
  { method := "GET", pathSegments := ["jobs"], queryString := "",
    apiKeyHeader := none, authorizationHeader := none, originHeader := none,
    textBody := none }

/-- A non-exempt request with a valid credential and a delegated bearer
credential on it. -/
def reqWithBearer : InboundRequest :=
  { method := "GET", pathSegments := ["jobs"], queryString := "",
    apiKeyHeader := some "client-request",
    authorizationHeader := some "Bearer token123",
    originHeader := none, textBody := none }

/-- A validly credentialed control-plane request. -/
def reqValidKey : InboundRequest :=
  { method := "POST", pathSegments := ["system", "start"], queryString := "",
    apiKeyHeader := some "client-request", authorizationHeader := none,
    originHeader := none, textBody := some "" }

/-- The paginated jobs listing request the dashboard itself issues. -/
def reqJobsPage1 : InboundRequest :=
  { method := "GET", pathSegments := ["jobs"], queryString := "page=1&limit=50",
    apiKeyHeader := some "client-request", authorizationHeader := none,
    originHeader := none, textBody := none }

/-- The data field of one wrapper level is the wrapped value. -/
theorem getField_envelope (p : Json) : (envelope p).getField "data" = some p := rfl

/-- A wrapper object is always truthy. -/
theorem truthy_envelope (p : Json) : (envelope p).truthy = true := rfl

/-- The chain leaves a value without a data field unchanged. -/
theorem normalizeEnvelope_noData (p : Json) (hp : p.getField "data" = none) :
    normalizeEnvelope p = p := by
  simp [normalizeEnvelope, hp, jsOrElse]

/-- The chain on one wrapper level around a data-less payload. -/
theorem normalizeEnvelope_one (p : Json) (hp : p.getField "data" = none) :
    normalizeEnvelope (envelope p) = if p.truthy = true then p else envelope p := by
  simp [normalizeEnvelope, getField_envelope, hp, jsOrElse]

/-- The chain on two wrapper levels. -/
theorem normalizeEnvelope_two (p : Json) :
    normalizeEnvelope (envelope (envelope p)) = if p.truthy = true then p else envelope p := by
  simp [normalizeEnvelope, getField_envelope, jsOrElse, truthy_envelope]

/-- An absent credential header on a non-exempt path yields the
missing-key rejection. -/
theorem validateApiKey_absent (req : InboundRequest) (now : String)
    (hpath : joinPath req.pathSegments ≠ "system/health")
    (hkey : req.apiKeyHeader = none) :
    validateApiKey req.apiKeyHeader (joinPath req.pathSegments) now =
      some missingKeyResponse := by
  simp [validateApiKey, hpath, hkey]

/-- Every response built after validation passes carries the permissive
cross-origin header set, whatever the upstream outcome. -/
theorem proxyRequest_headers_cors (req : InboundRequest) (cfg : Option String) (now : String)
    (upstream : UpstreamResult)
    (hval : validateApiKey req.apiKeyHeader (joinPath req.pathSegments) now = none) :
    (proxyRequest req cfg now upstream).fst.headers = corsHeaders := by
  cases upstream with
  | ok st body =>
      cases body with
      | some j => simp [proxyRequest, hval]
      | none =>
          simp [proxyRequest, hval, handleProxyCatch]
          split <;> simp [backendUnavailableResponse, proxyErrorResponse]
  | err n m =>
      simp [proxyRequest, hval, handleProxyCatch]
      split <;> simp [backendUnavailableResponse, proxyErrorResponse]

/-- C1 counterexample: the request without a credential header on the
non-exempt jobs path is answered 401, but its body has no timestamp
field and its error field is the bare message string, so it carries
neither a timestamp nor an AUTH_MISSING code as the claim states. -/
theorem C1_counterexample :
    (proxyRequest reqNoKey (some "secret") "T0" (.ok 200 (some (.obj [])))).fst.status = 401 ∧
    (proxyRequest reqNoKey (some "secret") "T0"
      (.ok 200 (some (.obj [])))).fst.body.getField "timestamp" = none ∧
    (proxyRequest reqNoKey (some "secret") "T0"
      (.ok 200 (some (.obj [])))).fst.body.getField "error" =
        some (.str "Missing X-API-Key header") :=
  ⟨rfl, rfl, rfl⟩

/-- C1 amended: a request to a non-exempt path with an absent credential
header is rejected with status 401, a body containing success false and
the fixed message string, no timestamp, and zero upstream calls; the
rejection happens before any upstream connection is attempted. -/
theorem C1_amended (req : InboundRequest) (cfg : Option String) (now : String)
    (upstream : UpstreamResult)
    (hpath : joinPath req.pathSegments ≠ "system/health")
    (hkey : req.apiKeyHeader = none) :
    (proxyRequest req cfg now upstream).fst.status = 401 ∧
    (proxyRequest req cfg now upstream).fst.body.getField "success" = some (.bool false) ∧
    (proxyRequest req cfg now upstream).fst.body.getField "error" =
      some (.str "Missing X-API-Key header") ∧
    (proxyRequest req cfg now upstream).fst.body.getField "timestamp" = none ∧
    (proxyRequest req cfg now upstream).snd = none := by
  have hv := validateApiKey_absent req now hpath hkey
  have hpr : proxyRequest req cfg now upstream = (missingKeyResponse, none) := by
    simp [proxyRequest, hv]
  rw [hpr]
  exact ⟨rfl, rfl, rfl, rfl, rfl⟩

/-- C1 witness: the amended statement instantiated at the concrete
credential-less jobs request. -/
theorem C1_amended_witness :
    (joinPath reqNoKey.pathSegments ≠ "system/health" ∧ reqNoKey.apiKeyHeader = none) ∧
    ((proxyRequest reqNoKey (some "secret") "T0" (.ok 200 (some (.obj [])))).fst.status = 401 ∧
     (proxyRequest reqNoKey (some "secret") "T0"
       (.ok 200 (some (.obj [])))).fst.body.getField "success" = some (.bool false) ∧
     (proxyRequest reqNoKey (some "secret") "T0"
       (.ok 200 (some (.obj [])))).fst.body.getField "error" =
         some (.str "Missing X-API-Key header") ∧
     (proxyRequest reqNoKey (some "secret") "T0"
       (.ok 200 (some (.obj [])))).fst.body.getField "timestamp" = none ∧
     (proxyRequest reqNoKey (some "secret") "T0" (.ok 200 (some (.obj [])))).snd = none) :=
  ⟨⟨by decide, rfl⟩,
   C1_amended reqNoKey (some "secret") "T0" (.ok 200 (some (.obj []))) (by decide) rfl⟩

/-- C2: at the failing input, the jobs listing request carrying the
pagination query, the fetch call the gateway issues has the bare URL
base plus path with the query string dropped, whatever the inbound
query string was; the claim and the calling code require the query to
be reattached unmodified. -/
theorem C2_code_bug (q : String) :
    (proxyRequest { reqJobsPage1 with queryString := q } (some "secret") "T0"
        (.ok 200 (some (.obj [])))).snd =
      some { url := "http://localhost:3002/api/v1/jobs", method := "GET",
             headers := [("Content-Type", "application/json"), ("X-API-Key", "secret")],
             textBody := none } := rfl

/-- C3 counterexample: on a three-level envelope around the health
payload the chain strips two levels, and applying it again strips the
remaining level, so idempotence fails at depth three. -/
theorem C3_counterexample :
    ¬ normalizeEnvelope (normalizeEnvelope (envelopeIter 3 payloadHealthy)) =
        normalizeEnvelope (envelopeIter 3 payloadHealthy) := by
  intro h
  have h2 : normalizeEnvelope (normalizeEnvelope (envelopeIter 3 payloadHealthy)) =
      payloadHealthy := rfl
  have h3 : normalizeEnvelope (envelopeIter 3 payloadHealthy) =
      envelopeIter 1 payloadHealthy := rfl
  rw [h2, h3] at h
  have h4 := congrArg (fun j => (Json.getField j "data").isSome) h
  exact absurd h4 (by decide)

/-- C3 amended: the chain is idempotent on every payload without a data
field wrapped in at most two envelope levels, the observed zero to two
range; it is not idempotent at greater depth. -/
theorem C3_amended (p : Json) (k : Nat) (hp : p.getField "data" = none) (hk : k ≤ 2) :
    normalizeEnvelope (normalizeEnvelope (envelopeIter k p)) =
      normalizeEnvelope (envelopeIter k p) := by
  interval_cases k
  · rw [show envelopeIter 0 p = p from rfl, normalizeEnvelope_noData p hp,
      normalizeEnvelope_noData p hp]
  · rw [show envelopeIter 1 p = envelope p from rfl, normalizeEnvelope_one p hp]
    by_cases hb : p.truthy = true
    · rw [if_pos hb]; exact normalizeEnvelope_noData p hp
    · rw [if_neg hb, normalizeEnvelope_one p hp, if_neg hb]
  · rw [show envelopeIter 2 p = envelope (envelope p) from rfl, normalizeEnvelope_two p]
    by_cases hb : p.truthy = true
    · rw [if_pos hb]; exact normalizeEnvelope_noData p hp
    · rw [if_neg hb, normalizeEnvelope_one p hp, if_neg hb]

/-- C3 witness: the amended statement instantiated at the health payload
under two envelope levels. -/
theorem C3_amended_witness :
    (payloadHealthy.getField "data" = none ∧ (2 : Nat) ≤ 2) ∧
    normalizeEnvelope (normalizeEnvelope (envelopeIter 2 payloadHealthy)) =
      normalizeEnvelope (envelopeIter 2 payloadHealthy) :=
  ⟨⟨rfl, by decide⟩, C3_amended payloadHealthy 2 rfl (by decide)⟩

/-- C4 counterexample: with the scheduler reported as not running, the
delete action still dispatches its network call, against the claim that
every job-mutating action is refused locally in that state. -/
theorem C4_counterexample : jobActionCallsGateway (some false) JobAction.del = true := rfl

/-- C4 amended: whenever the reported scheduler state is not running,
the create, update, execute, pause and resume actions are refused
locally with no network call, while the delete action dispatches its
call unconditionally, with no local lifecycle guard. -/
theorem C4_amended (r : Option Bool) (hr : r ≠ some true) :
    (∀ a : JobAction, a ≠ JobAction.del → jobActionCallsGateway r a = false) ∧
    jobActionCallsGateway r JobAction.del = true := by
  refine ⟨?_, rfl⟩
  intro a ha
  have hb : (r == some true) = false := by
    cases r with
    | none => rfl
    | some b =>
        cases b with
        | true => exact absurd rfl hr
        | false => rfl
  cases a <;> first | exact absurd rfl ha | exact hb

/-- C4 witness: the amended statement instantiated at a scheduler
reported as stopped. -/
theorem C4_amended_witness :
    ((some false : Option Bool) ≠ some true) ∧
    ((∀ a : JobAction, a ≠ JobAction.del → jobActionCallsGateway (some false) a = false) ∧
     jobActionCallsGateway (some false) JobAction.del = true) :=
  ⟨by decide, C4_amended (some false) (by decide)⟩

/-- C5 counterexample: a non-exempt request carrying a bearer credential
is relayed with exactly Content-Type and the secret credential header;
the header set the claim prescribes, which forwards the bearer
credential, differs from what is sent. -/
theorem C5_counterexample :
    ((proxyRequest reqWithBearer (some "secret") "T0"
        (.ok 200 (some (.obj [])))).snd.map UpstreamCall.headers =
      some [("Content-Type", "application/json"), ("X-API-Key", "secret")]) ∧
    ((proxyRequest reqWithBearer (some "secret") "T0"
        (.ok 200 (some (.obj [])))).snd.map UpstreamCall.headers ≠
      some (specUpstreamHeaders reqWithBearer (some "secret"))) :=
  ⟨rfl, by decide⟩

/-- C5 amended: on every validated relayed call the headers sent
upstream are exactly Content-Type application/json plus, on non-exempt
paths with the secret configured, the secret credential header; no
inbound header is forwarded, and the secret header is omitted for the
exempt health path. -/
theorem C5_amended (req : InboundRequest) (cfg : Option String) (now : String)
    (upstream : UpstreamResult)
    (hval : validateApiKey req.apiKeyHeader (joinPath req.pathSegments) now = none) :
    ∃ call : UpstreamCall,
      (proxyRequest req cfg now upstream).snd = some call ∧
      (∀ kv ∈ call.headers, kv.1 = "Content-Type" ∨ kv.1 = "X-API-Key") ∧
      ("Content-Type", "application/json") ∈ call.headers ∧
      (joinPath req.pathSegments ≠ "system/health" →
        ∀ k, cfg = some k → ("X-API-Key", k) ∈ call.headers) ∧
      (joinPath req.pathSegments = "system/health" →
        ∀ v, ("X-API-Key", v) ∉ call.headers) := by
  refine ⟨{ url := SCHEDULER_API_BASE ++ "/" ++ joinPath req.pathSegments,
            method := req.method,
            headers := createHeaders
              (if joinPath req.pathSegments ≠ "system/health" then cfg else none),
            textBody := match req.textBody with
                        | some s => if s = "" then none else some s
                        | none => none }, ?_, ?_, ?_, ?_, ?_⟩
  · cases upstream with
    | ok st body => cases body <;> simp [proxyRequest, hval]
    | err n m => simp [proxyRequest, hval]
  · intro kv hkv
    by_cases hp : joinPath req.pathSegments = "system/health"
    · simp [hp, createHeaders] at hkv
      left
      rw [hkv]
    · rw [if_pos hp] at hkv
      cases cfg with
      | none =>
          simp [createHeaders] at hkv
          left
          rw [hkv]
      | some k =>
          simp [createHeaders] at hkv
          rcases hkv with h | h
          · left; rw [h]
          · right; rw [h]
  · by_cases hp : joinPath req.pathSegments = "system/health"
    · simp [hp, createHeaders]
    · rw [if_pos hp]
      cases cfg <;> simp [createHeaders]
  · intro hp k hk
    rw [if_pos hp, hk]
    simp [createHeaders]
  · intro hp v
    rw [if_neg (fun h => h hp)]
    simp [createHeaders]

/-- C5 witness: the amended statement instantiated at the bearer-marked
jobs request. -/
theorem C5_amended_witness :
    validateApiKey reqWithBearer.apiKeyHeader (joinPath reqWithBearer.pathSegments) "T0" =
      none ∧
    ∃ call : UpstreamCall,
      (proxyRequest reqWithBearer (some "secret") "T0"
        (.ok 200 (some (.obj [])))).snd = some call ∧
      (∀ kv ∈ call.headers, kv.1 = "Content-Type" ∨ kv.1 = "X-API-Key") ∧
      ("Content-Type", "application/json") ∈ call.headers ∧
      (joinPath reqWithBearer.pathSegments ≠ "system/health" →
        ∀ k, (some "secret" : Option String) = some k → ("X-API-Key", k) ∈ call.headers) ∧
      (joinPath reqWithBearer.pathSegments = "system/health" →
        ∀ v, ("X-API-Key", v) ∉ call.headers) :=
  ⟨rfl, C5_amended reqWithBearer (some "secret") "T0" (.ok 200 (some (.obj []))) rfl⟩

/-- C6: on a validated relayed call the connection-refused failure is
answered with the distinguished 503 BACKEND_UNAVAILABLE response, and
every other relay failure, a thrown error that is not a TypeError
mentioning fetch or an unparseable upstream body, is answered with the
500 PROXY_ERROR response; the two carry distinct statuses and codes,
both distinct from the 401 credential rejections. -/
theorem C6_error_classification (req : InboundRequest) (cfg : Option String) (now : String)
    (hval : validateApiKey req.apiKeyHeader (joinPath req.pathSegments) now = none) :
    ((proxyRequest req cfg now
        (.err connectionRefusedName connectionRefusedMessage)).fst =
      backendUnavailableResponse now) ∧
    (backendUnavailableResponse now).status = 503 ∧
    ((backendUnavailableResponse now).body.getField "error").bind
        (fun e => e.getField "code") = some (.str "BACKEND_UNAVAILABLE") ∧
    (∀ errorName errorMessage : String,
      ¬ (errorName = "TypeError" ∧ containsSubstr errorMessage "fetch" = true) →
      (proxyRequest req cfg now (.err errorName errorMessage)).fst = proxyErrorResponse now) ∧
    (∀ st : Nat, (proxyRequest req cfg now (.ok st none)).fst = proxyErrorResponse now) ∧
    (proxyErrorResponse now).status = 500 ∧
    ((proxyErrorResponse now).body.getField "error").bind
        (fun e => e.getField "code") = some (.str "PROXY_ERROR") := by
  have hcat : handleProxyCatch connectionRefusedName connectionRefusedMessage now =
      backendUnavailableResponse now := rfl
  have hparse : handleProxyCatch jsonParseErrorName jsonParseErrorMessage now =
      proxyErrorResponse now := rfl
  refine ⟨by simp [proxyRequest, hval, hcat], rfl, rfl, ?_, ?_, rfl, rfl⟩
  · intro errorName errorMessage h
    simp [proxyRequest, hval, handleProxyCatch]
    intro h1 h2
    exact absurd ⟨h1, h2⟩ h
  · intro st
    simp [proxyRequest, hval, hparse]

/-- C6 witness: the classification instantiated at the validly
credentialed start request. -/
theorem C6_error_classification_witness :
    validateApiKey reqValidKey.apiKeyHeader (joinPath reqValidKey.pathSegments) "T0" =
      none ∧
    (((proxyRequest reqValidKey (some "secret") "T0"
        (.err connectionRefusedName connectionRefusedMessage)).fst =
      backendUnavailableResponse "T0") ∧
    (backendUnavailableResponse "T0").status = 503 ∧
    ((backendUnavailableResponse "T0").body.getField "error").bind
        (fun e => e.getField "code") = some (.str "BACKEND_UNAVAILABLE") ∧
    (∀ errorName errorMessage : String,
      ¬ (errorName = "TypeError" ∧ containsSubstr errorMessage "fetch" = true) →
      (proxyRequest reqValidKey (some "secret") "T0" (.err errorName errorMessage)).fst =
        proxyErrorResponse "T0") ∧
    (∀ st : Nat,
      (proxyRequest reqValidKey (some "secret") "T0" (.ok st none)).fst =
        proxyErrorResponse "T0") ∧
    (proxyErrorResponse "T0").status = 500 ∧
    ((proxyErrorResponse "T0").body.getField "error").bind
        (fun e => e.getField "code") = some (.str "PROXY_ERROR")) :=
  ⟨rfl, C6_error_classification reqValidKey (some "secret") "T0" rfl⟩

/-- C7 counterexample: the 401 rejection of the credential-less jobs
request carries no headers at all, in particular not the permissive
cross-origin header the claim requires on every response. -/
theorem C7_counterexample :
    (proxyRequest reqNoKey (some "secret") "T0" (.ok 200 (some (.obj [])))).fst.headers = [] ∧
    ("Access-Control-Allow-Origin", "*") ∉
      (proxyRequest reqNoKey (some "secret") "T0" (.ok 200 (some (.obj [])))).fst.headers := by
  have h : (proxyRequest reqNoKey (some "secret") "T0"
      (.ok 200 (some (.obj [])))).fst.headers = ([] : List (String × String)) := rfl
  rw [h]
  exact ⟨rfl, by simp⟩

/-- C7 amended: every response built after validation passes, the
success relay and both translated failures, carries the permissive
cross-origin headers, and the pre-flight handler answers 200 with those
headers unconditionally; the two 401 credential rejections carry no
cross-origin headers. -/
theorem C7_amended (req : InboundRequest) (cfg : Option String) (now : String)
    (hval : validateApiKey req.apiKeyHeader (joinPath req.pathSegments) now = none) :
    (∀ upstream : UpstreamResult,
      (proxyRequest req cfg now upstream).fst.headers = corsHeaders) ∧
    OPTIONS.status = 200 ∧
    OPTIONS.headers = corsHeaders ∧
    (∀ (h : Option String) (p now2 : String) (r : GatewayResponse),
      validateApiKey h p now2 = some r → r.headers = []) := by
  refine ⟨fun upstream => proxyRequest_headers_cors req cfg now upstream hval, rfl, rfl, ?_⟩
  intro h p now2 r hr
  rw [validateApiKey] at hr
  split_ifs at hr with h1 h2 h3
  · simp at hr
    rw [← hr]
    rfl
  · simp at hr
    rw [← hr]
    rfl

/-- C7 witness: the amended statement instantiated at the validly
credentialed start request. -/
theorem C7_amended_witness :
    validateApiKey reqValidKey.apiKeyHeader (joinPath reqValidKey.pathSegments) "T0" =
      none ∧
    ((∀ upstream : UpstreamResult,
      (proxyRequest reqValidKey (some "secret") "T0" upstream).fst.headers = corsHeaders) ∧
    OPTIONS.status = 200 ∧
    OPTIONS.headers = corsHeaders ∧
    (∀ (h : Option String) (p now2 : String) (r : GatewayResponse),
      validateApiKey h p now2 = some r → r.headers = [])) :=
  ⟨rfl, C7_amended reqValidKey (some "secret") "T0" rfl⟩

/-- C8: after any of the three lifecycle operations fails, the rollback
leaves no optimistic state and no operation label, and the effective
state is exactly the last polled value, none standing for Unknown when
no poll has succeeded yet. -/
theorem C8_failure_rollback (s : DashboardState) (k : SchedulerOp) :
    (onOperationError (onMutate k s)).optimisticSchedulerState = none ∧
    (onOperationError (onMutate k s)).operationInProgress = none ∧
    currentSchedulerState (onOperationError (onMutate k s)) = s.schedulerIsRunning := by
  cases k <;> simp [onOperationError, onMutate, currentSchedulerState]

/-- C9: a poll tick whose value matches the optimistic state clears it
and makes the effective state the polled value; a tick whose value
differs leaves the optimistic state set and in charge of the display;
and once the optimistic state is clear, neither a rollback nor any
further poll tick can clear it again, so each clearing happens at most
once. -/
theorem C9_poll_reconciliation (s : DashboardState) (b v : Bool)
    (hopt : s.optimisticSchedulerState = some b) :
    (v = b →
      (pollTick s v).optimisticSchedulerState = none ∧
      currentSchedulerState (pollTick s v) = some v) ∧
    (v ≠ b →
      (pollTick s v).optimisticSchedulerState = some b ∧
      currentSchedulerState (pollTick s v) = some b) ∧
    (∀ t : DashboardState, t.optimisticSchedulerState = none →
      (onOperationError t).optimisticSchedulerState = none ∧
      ∀ w : Bool, (pollTick t w).optimisticSchedulerState = none) := by
  refine ⟨?_, ?_, ?_⟩
  · intro hv
    subst hv
    simp [pollTick, reconcileEffect, hopt, currentSchedulerState]
  · intro hv
    rw [pollTick, reconcileEffect]
    simp only [hopt]
    rw [if_neg (fun h => hv h)]
    simp [currentSchedulerState, hopt]
  · intro t ht
    constructor
    · simp [onOperationError]
    · intro w
      simp [pollTick, reconcileEffect, ht]

/-- C9 witness: the reconciliation statement instantiated at a state
with optimistic true over polled false, and a poll delivering false. -/
theorem C9_poll_reconciliation_witness :
    (DashboardState.mk (some true) (some "starting")
        (some false)).optimisticSchedulerState = some true ∧
    ((false = true →
      (pollTick (DashboardState.mk (some true) (some "starting") (some false))
          false).optimisticSchedulerState = none ∧
      currentSchedulerState
          (pollTick (DashboardState.mk (some true) (some "starting") (some false)) false) =
        some false) ∧
    (false ≠ true →
      (pollTick (DashboardState.mk (some true) (some "starting") (some false))
          false).optimisticSchedulerState = some true ∧
      currentSchedulerState
          (pollTick (DashboardState.mk (some true) (some "starting") (some false)) false) =
        some true) ∧
    (∀ t : DashboardState, t.optimisticSchedulerState = none →
      (onOperationError t).optimisticSchedulerState = none ∧
      ∀ w : Bool, (pollTick t w).optimisticSchedulerState = none)) :=
  ⟨rfl, C9_poll_reconciliation
    (DashboardState.mk (some true) (some "starting") (some false)) true false rfl⟩

/-- C10: on a validated relayed call whose upstream transport succeeds,
an unparseable body yields the 500 PROXY_ERROR response instead of a
relay of the upstream status, and a parseable body is relayed as the
upstream status with the parsed value re-serialized as the body. -/
theorem C10_parse_failure (req : InboundRequest) (cfg : Option String) (now : String)
    (hval : validateApiKey req.apiKeyHeader (joinPath req.pathSegments) now = none) :
    (∀ st : Nat, (proxyRequest req cfg now (.ok st none)).fst = proxyErrorResponse now) ∧
    (proxyErrorResponse now).status = 500 ∧
    (∀ (st : Nat) (j : Json),
      (proxyRequest req cfg now (.ok st (some j))).fst =
        { status := st, body := j, headers := corsHeaders }) := by
  have hparse : handleProxyCatch jsonParseErrorName jsonParseErrorMessage now =
      proxyErrorResponse now := rfl
  refine ⟨?_, rfl, ?_⟩
  · intro st
    simp [proxyRequest, hval, hparse]
  · intro st j
    simp [proxyRequest, hval]

/-- C10 witness: the parse-failure statement instantiated at the validly
credentialed start request. -/
theorem C10_parse_failure_witness :
    validateApiKey reqValidKey.apiKeyHeader (joinPath reqValidKey.pathSegments) "T0" =
      none ∧
    ((∀ st : Nat,
      (proxyRequest reqValidKey (some "secret") "T0" (.ok st none)).fst =
        proxyErrorResponse "T0") ∧
    (proxyErrorResponse "T0").status = 500 ∧
    (∀ (st : Nat) (j : Json),
      (proxyRequest reqValidKey (some "secret") "T0" (.ok st (some j))).fst =
        { status := st, body := j, headers := corsHeaders })) :=
  ⟨rfl, C10_parse_failure reqValidKey (some "secret") "T0" rfl⟩
